import Mathlib

/-!
Verification of the LLAC LUT-generation scripts (`Src/RTL/Scripts/hex_utils.py`
and `Src/RTL/Scripts/generate_trig_luts.py`) against their natural-language
specification.

The Python code is shallowly embedded: machine floats that only carry byte
patterns are modelled as byte lists, exact numeric computations are modelled
over `ℚ`/`ℝ`, and every operation that can raise a Python exception returns
`Except PyError _`.  Numpy behaviour that the code relies on is modelled from
the numpy documentation and noted at the point of use.
-/

/-- The Python exception kinds relevant to the embedded code. -/
inductive PyError where
  | valueError
  | typeError
  | attributeError
  | nameError
  | notImplementedError
  | fileExistsError
  deriving DecidableEq, Repr

/-- `BYTEORDER` from `Src/Allocator/Interpreter/dataclass.py`
(`LITTLE = 0`, `BIG = 1`, `NATIVE = 2`). -/
inductive BYTEORDER where
  | LITTLE
  | BIG
  | NATIVE
  deriving DecidableEq, Repr

/-- A concrete byte-order symbol, the `'>'` / `'<'` strings of numpy. -/
inductive OrderSym where
  | big
  | little
  deriving DecidableEq, Repr

/-- `HexLutManager._get_byte_order_symbol_from_sys` (`hex_utils.py` line 118):
`'<' if sys.byteorder == 'little' else '>'`.  The host endianness is the
parameter `sysLittle`. -/
def get_byte_order_symbol_from_sys (sysLittle : Bool) : OrderSym :=
  if sysLittle then OrderSym.little else OrderSym.big

/-- `HexLutManager._get_byte_order_symbol_from_target` (`hex_utils.py`
lines 121-132). -/
def get_byte_order_symbol_from_target (sysLittle : Bool) (target : BYTEORDER) : OrderSym :=
  match target with
  | BYTEORDER.BIG => OrderSym.big
  | BYTEORDER.LITTLE => OrderSym.little
  | BYTEORDER.NATIVE => get_byte_order_symbol_from_sys sysLittle

/-- A numpy numeric scalar (`np.floating | np.integer`), modelled bit-for-bit
by its item size in bytes and its byte pattern written in big-endian order.
The scalar's innate storage order is the host's native order
(`np.dtype(...).byteorder == '='` for numpy scalars). -/
structure NpScalar where
  itemsize : Nat
  beBytes : List Nat
  deriving DecidableEq, Repr

/-- The byte pattern of a scalar laid out in the given byte order. -/
def NpScalar.bytesInOrder (f : NpScalar) (o : OrderSym) : List Nat :=
  match o with
  | OrderSym.big => f.beBytes
  | OrderSym.little => f.beBytes.reverse

/-- `HexLutManager._convert_to_byte_order` (`hex_utils.py` lines 134-147).

* `current_order` is `'='` for a numpy scalar and is replaced by the host
  order (lines 138-140).
* When `current_order == target_order` the code runs
  `f.tobytes(target_order)` (line 143).  `np.generic.tobytes` takes a memory
  *layout* argument restricted to `'C'`/`'F'`/`'A'`/`'K'`; passing the
  byte-order symbol `'>'` or `'<'` raises `ValueError` ("order not
  understood").
* Otherwise the code runs
  `f.astype(f.dtype.newbyteorder(target_order)).tobytes()` (line 145).  For a
  numpy *scalar*, `astype` converts value-preservingly and hands the result
  back through `PyArray_Scalar`, which stores it in native order (scalars
  cannot carry a non-native byte order), so the trailing `tobytes()` yields
  the scalar's bytes in the host's native order — no byte swap ever
  happens. -/
def convert_to_byte_order (sysLittle : Bool) (f : NpScalar) (target : BYTEORDER) :
    Except PyError (List Nat) :=
  let targetSym := get_byte_order_symbol_from_target sysLittle target
  let currentSym := get_byte_order_symbol_from_sys sysLittle
  if currentSym = targetSym then
    Except.error PyError.valueError
  else
    Except.ok (f.bytesInOrder currentSym)

/-- The sixteen lowercase hexadecimal digits, as produced by `bytes.hex()`. -/
def hexDigitChar (n : Nat) : Char :=
  match n with
  | 0 => '0' | 1 => '1' | 2 => '2' | 3 => '3'
  | 4 => '4' | 5 => '5' | 6 => '6' | 7 => '7'
  | 8 => '8' | 9 => '9' | 10 => 'a' | 11 => 'b'
  | 12 => 'c' | 13 => 'd' | 14 => 'e' | _ => 'f'

/-- `bytes.hex()`: each byte becomes two lowercase hex characters. -/
def bytesToHex (bs : List Nat) : List Char :=
  (bs.map (fun b => [hexDigitChar (b / 16), hexDigitChar (b % 16)])).flatten

/-- The numeric value of a hexadecimal digit character, `none` for
non-hex-digit characters (as accepted by `bytes.fromhex`). -/
def hexDigitVal? (c : Char) : Option Nat :=
  if '0' ≤ c ∧ c ≤ '9' then some (c.toNat - '0'.toNat)
  else if 'a' ≤ c ∧ c ≤ 'f' then some (c.toNat - 'a'.toNat + 10)
  else if 'A' ≤ c ∧ c ≤ 'F' then some (c.toNat - 'A'.toNat + 10)
  else none

/-- `bytes.fromhex`: parses pairs of hex digits into bytes, skipping spaces
between pairs; any other character (or a trailing single digit) raises
`ValueError`, modelled as `none`. -/
def pyFromHex : List Char → Option (List Nat)
  | [] => some []
  | c1 :: rest =>
    if c1 = ' ' then pyFromHex rest
    else
      match rest with
      | [] => none
      | c2 :: rest2 => do
        let h ← hexDigitVal? c1
        let l ← hexDigitVal? c2
        let bs ← pyFromHex rest2
        some ((16 * h + l) :: bs)

/-- `HexLutManager.float_to_hex` (`hex_utils.py` lines 149-162):
`_convert_to_byte_order(f, target_order).hex()`. -/
def float_to_hex (sysLittle : Bool) (f : NpScalar) (target : BYTEORDER) :
    Except PyError (List Char) :=
  (convert_to_byte_order sysLittle f target).map bytesToHex

/-- `HexLutManager.hex_to_dtype` (`hex_utils.py` lines 164-198).

Validation steps in source order:
1. odd hex-string length raises `ValueError` (line 181);
2. `bytes.fromhex` raises `ValueError` on non-hex input (line 185);
3. a parsed byte count different from `np.dtype(dtype).itemsize` raises
   `ValueError` (line 188);
4. the final line evaluates
   `np.frombuffer(packed_bytes, dtype=np.dtype(dtype).newBYTEORDER(target_order))`
   (line 198).  `np.dtype` has no attribute `newBYTEORDER` (the method is
   spelled `newbyteorder`), so every call that passes validation raises
   `AttributeError` before producing a value. -/
def hex_to_dtype (sysLittle : Bool) (hexStr : List Char) (itemsize : Nat)
    (target : BYTEORDER) : Except PyError NpScalar :=
  if hexStr.length % 2 ≠ 0 then
    Except.error PyError.valueError
  else
    match pyFromHex hexStr with
    | none => Except.error PyError.valueError
    | some packedBytes =>
      if packedBytes.length ≠ itemsize then
        Except.error PyError.valueError
      else
        let _targetSym := get_byte_order_symbol_from_target sysLittle target
        Except.error PyError.attributeError

/-- `HexLutManager.hex_to_float` (`hex_utils.py` lines 246-261) delegates to
`hex_to_dtype`. -/
def hex_to_float (sysLittle : Bool) (hexStr : List Char) (itemsize : Nat)
    (target : BYTEORDER) : Except PyError NpScalar :=
  hex_to_dtype sysLittle hexStr itemsize target

/-- `HexLutManager.hex_to_int` (`hex_utils.py` lines 230-244) delegates to
`hex_to_dtype`. -/
def hex_to_int (sysLittle : Bool) (hexStr : List Char) (itemsize : Nat)
    (target : BYTEORDER) : Except PyError NpScalar :=
  hex_to_dtype sysLittle hexStr itemsize target

/-- `int.bit_length()` of a Python integer: bits needed for the absolute
value, `0` for `0`. -/
def pyBitLength (i : Int) : Nat :=
  if i = 0 then 0 else Nat.log2 i.natAbs + 1

/-- The numpy integer types `int_to_hex` selects among. -/
inductive NpIntType where
  | int32
  | int64
  deriving DecidableEq, Repr

/-- The width selection of `HexLutManager.int_to_hex` for a builtin `int`
(`hex_utils.py` lines 214-225):

* `0 <= bit_length < 31`: `np.int32`;
* `31 <= bit_length < 63`: `np.int64`;
* `63 <= bit_length < 127`: the code evaluates `np.int128(i)`, but numpy has
  no attribute `int128`, so this raises an unhandled `AttributeError`;
* otherwise: an explicit `ValueError` is raised. -/
def int_to_hex_select (i : Int) : Except PyError NpIntType :=
  if pyBitLength i < 31 then Except.ok NpIntType.int32
  else if pyBitLength i < 63 then Except.ok NpIntType.int64
  else if pyBitLength i < 127 then Except.error PyError.attributeError
  else Except.error PyError.valueError

/-- Big-endian two's-complement byte pattern of an integer at width `w`
bytes: byte `j` of `i mod 2^(8w)`, most significant first. -/
def intBytesBE (w : Nat) (i : Int) : List Nat :=
  (List.range w).map (fun j => ((i % (2 ^ (8 * w))).toNat / 2 ^ (8 * (w - 1 - j))) % 256)

/-- `HexLutManager.int_to_hex` (`hex_utils.py` lines 200-228) for a builtin
`int` input: select a numpy width, then
`_convert_to_byte_order(i, target_order).hex()`. -/
def int_to_hex (sysLittle : Bool) (i : Int) (target : BYTEORDER) :
    Except PyError (List Char) :=
  match int_to_hex_select i with
  | Except.error e => Except.error e
  | Except.ok t =>
    let w := match t with
      | NpIntType.int32 => 4
      | NpIntType.int64 => 8
    (convert_to_byte_order sysLittle ⟨w, intBytesBE w i⟩ target).map bytesToHex

/-- Index of the last occurrence of `c` in `l`, as `os.path`'s `rfind`:
`-1` when absent. -/
def pyRfind (c : Char) (l : List Char) : Int :=
  match l.reverse.findIdx? (fun x => x = c) with
  | none => -1
  | some i => (l.length : Int) - 1 - i

/-- The extension suffix `.hex`. -/
def hexExt : List Char := ['.', 'h', 'e', 'x']

/-- `posixpath.splitext`: split off the extension beginning at the last `'.'`,
provided some non-dot character lies strictly between the last `'/'` and that
dot (leading dots of the basename never start an extension). -/
def splitext (p : List Char) : List Char × List Char :=
  let sepIndex := pyRfind '/' p
  let dotIndex := pyRfind '.' p
  if dotIndex > sepIndex then
    let hasNonDot := (List.range p.length).any
      (fun j => decide (sepIndex + 1 ≤ (j : Int)) && decide ((j : Int) < dotIndex)
        && decide (p.getD j '.' ≠ '.'))
    if hasNonDot then (p.take dotIndex.toNat, p.drop dotIndex.toNat) else (p, [])
  else (p, [])

/-- `posixpath.join` for a single component: `b` if `b` is absolute; no extra
separator if `a` is empty or already ends in `'/'`. -/
def posix_join (a b : List Char) : List Char :=
  if b.head? = some '/' then b
  else if a = [] ∨ a.getLast? = some '/' then a ++ b
  else a ++ '/' :: b

/-- `HexLutManager._get_valid_file_path` (`hex_utils.py` lines 263-287).

* `onDisk` models `os.path.exists` over the file system;
* no extension: `'.hex'` is appended;
* an extension other than `'.hex'`: `ValueError`;
* `ow is False` and the target exists: `FileExistsError` (raised before the
  caller `write_lut_to_hex` opens the file, so no write occurs);
* `ow` `True` or `None`: existence is not checked. -/
def get_valid_file_path (dir : List Char) (onDisk : List Char → Bool)
    (fileName : List Char) (ow : Option Bool) : Except PyError (List Char) :=
  let ext := (splitext fileName).2
  if ext = [] then
    let fileName := fileName ++ hexExt
    let filePath := posix_join dir fileName
    if ow = some false ∧ onDisk filePath then Except.error PyError.fileExistsError
    else Except.ok filePath
  else if ext ≠ hexExt then
    Except.error PyError.valueError
  else
    let filePath := posix_join dir fileName
    if ow = some false ∧ onDisk filePath then Except.error PyError.fileExistsError
    else Except.ok filePath

/-! ### `Src/RTL/Scripts/generate_trig_luts.py` -/

/-- `TRIGLUTDEFS` (`Src/RTL/Scripts/dataclass.py` lines 39-51): the supported
trig functions. -/
inductive TRIGLUTDEFS where
  | SIN
  | COS
  | TAN
  | ASIN
  | ACOS
  | ATAN
  deriving DecidableEq, Repr

/-- `TRIGFOLD` (`Src/RTL/Scripts/dataclass.py` lines 87-105):
`LOW = 0` (full table / complete period), `MED = 1` (half table),
`HIGH = 2` (quarter table). -/
inductive TRIGFOLD where
  | LOW
  | MED
  | HIGH
  deriving DecidableEq, Repr

/-- The integer `.value` of a `TRIGFOLD` member. -/
def TRIGFOLD.val (m : TRIGFOLD) : Nat :=
  match m with
  | TRIGFOLD.LOW => 0
  | TRIGFOLD.MED => 1
  | TRIGFOLD.HIGH => 2

/-- `TRIGPREC` (`Src/RTL/Scripts/dataclass.py` lines 108-121):
`LOWP = 0`, `MEDP = 1`, `HIGHP = 2`. -/
inductive TRIGPREC where
  | LOWP
  | MEDP
  | HIGHP
  deriving DecidableEq, Repr

/-- The integer `.value` of a `TRIGPREC` member. -/
def TRIGPREC.val (p : TRIGPREC) : Nat :=
  match p with
  | TRIGPREC.LOWP => 0
  | TRIGPREC.MEDP => 1
  | TRIGPREC.HIGHP => 2

/-- `_calculate_scale_factor` (`generate_trig_luts.py` lines 323-324):
`max(table_mode.value * (TRIGPREC.HIGHP.value - table_prec.value), 1)`.
The Python subtraction never goes negative (`table_prec.value ≤ 2`), so `Nat`
subtraction is exact here. -/
def calculate_scale_factor (tableMode : TRIGFOLD) (tablePrec : TRIGPREC) : Nat :=
  max (tableMode.val * (TRIGPREC.HIGHP.val - tablePrec.val)) 1

/-- `N_TABLE_ENTRIES = args['bram'] // bw_int_bytes`
(`generate_trig_luts.py` line 206). -/
def nTableEntries (bram bwIntBytes : Nat) : Nat :=
  bram / bwIntBytes

/-- The sinusoid sample phases (`generate_trig_luts.py` lines 355-358), in
units of `π`: `phis = (np.pi * 2 * np.arange(sz)) / N_TABLE_ENTRIES` followed
by `phis += np.pi / N_TABLE_ENTRIES`, i.e. entry `i` is
`π * ((2 * i) / N + 1 / N)`. -/
def sinPhiCoeffs (sz N : Nat) : List ℚ :=
  (List.range sz).map (fun i : Nat => 2 * (i : ℚ) / N + 1 / N)

/-- The SIN/COS branch of `main` (`generate_trig_luts.py` lines 342-358) for
one sinusoid: `sz = N_TABLE_ENTRIES // _calculate_scale_factor(...)`, then the
fold-mode match assigns `stop` (`π/2` for `HIGH`, `2π` for `LOW`, recorded
here in units of `π`), raising `NotImplementedError('Half table not yet
supported')` for `MED`; `stop` is never read afterwards — the phases are
always `sinPhiCoeffs sz N`. -/
def sinusoidBranch (N : Nat) (fold : TRIGFOLD) (prec : TRIGPREC) :
    Except PyError (List ℚ) :=
  let sz := N / calculate_scale_factor fold prec
  match fold with
  | TRIGFOLD.HIGH =>
    let _stop : ℚ := 1 / 2
    Except.ok (sinPhiCoeffs sz N)
  | TRIGFOLD.MED => Except.error PyError.notImplementedError
  | TRIGFOLD.LOW =>
    let _stop : ℚ := 2
    Except.ok (sinPhiCoeffs sz N)

/-- `sz = np.ceil(np.pi / (2 * k)) + 1` (`generate_trig_luts.py` line 389),
the required TAN table length before power-of-two rounding. -/
noncomputable def tanRequiredLen (k : ℝ) : Nat :=
  ⌈Real.pi / (2 * k)⌉₊ + 1

/-- `sz = 1 << int(np.ceil(np.log2(sz)))` (`generate_trig_luts.py` line 390):
for a positive integer `m`, `⌈log₂ m⌉ = Nat.clog 2 m`. -/
def pow2Ceil (m : Nat) : Nat :=
  2 ^ Nat.clog 2 m

/-- The tolerance-driven TAN table length
(`generate_trig_luts.py` lines 389-390). -/
noncomputable def tanTableSize (k : ℝ) : Nat :=
  pow2Ceil (tanRequiredLen k)

/-- The TAN branch of `main` (`generate_trig_luts.py` lines 384-402), reduced
to the resulting table length.  In the `LOW` case the source reads `sz` in the
expression for `stop` (line 396) before `sz` is assigned in this branch;
`szPrev` is the value (if any) left over from an earlier sinusoid branch of
`main`, so `szPrev = none` is an `UnboundLocalError` (a `NameError`). -/
noncomputable def tanBranch (szPrev : Option Nat) (N : Nat) (k : ℝ) (fold : TRIGFOLD) :
    Except PyError Nat :=
  match fold with
  | TRIGFOLD.HIGH => Except.ok (tanTableSize k)
  | TRIGFOLD.MED => Except.error PyError.notImplementedError
  | TRIGFOLD.LOW =>
    match szPrev with
    | none => Except.error PyError.nameError
    | some _ => Except.ok N

/-- The ASIN/ACOS branch of `main` (`generate_trig_luts.py` lines 412-426)
for one arc-sinusoid, reduced to the resulting table length
`sz = N_TABLE_ENTRIES // _calculate_scale_factor(...)`; the fold-mode match
sets `stop` (`√2/2` for `HIGH`, `1` for `LOW`) and raises
`NotImplementedError` for `MED`. -/
def arcSinusoidBranch (N : Nat) (fold : TRIGFOLD) (prec : TRIGPREC) :
    Except PyError Nat :=
  let sz := N / calculate_scale_factor fold prec
  match fold with
  | TRIGFOLD.HIGH => Except.ok sz
  | TRIGFOLD.MED => Except.error PyError.notImplementedError
  | TRIGFOLD.LOW => Except.ok sz

/-- One step of `newton_raphson_N` (`generate_trig_luts.py` lines 449-475)
over exact rationals, with `np.log` passed in abstractly as `log`:
`f(N) = log(N² + 1) - 2·N·k`, `f'(N) = 2N/(N² + 1) - 2k`; iteration stops
with `None` when `|f'(N)| < tolerance` or when `max_iter` runs out, and
returns `N_next` once `|N_next - N| < tolerance`.  (The guarded division can
not overflow or divide by zero once `|f'(N)| ≥ tolerance`.) -/
def newtonRaphsonGo (log : ℚ → ℚ) (k tolerance : ℚ) : Nat → ℚ → Option ℚ
  | 0, _ => none
  | fuel + 1, nCurrent =>
    let fN := log (nCurrent ^ 2 + 1) - 2 * nCurrent * k
    let fPrimeN := 2 * nCurrent / (nCurrent ^ 2 + 1) - 2 * k
    if |fPrimeN| < tolerance then none
    else
      let nNext := nCurrent - fN / fPrimeN
      if |nNext - nCurrent| < tolerance then some nNext
      else newtonRaphsonGo log k tolerance fuel nNext

/-- `newton_raphson_N(k, tolerance=1e-7, max_iter=100)` starting from
`N_current = 8` (`generate_trig_luts.py` lines 449-475). -/
def newton_raphson_N (log : ℚ → ℚ) (k : ℚ) : Option ℚ :=
  newtonRaphsonGo log k (1 / 10000000) 100 8

/-- The guard `if k > k + err_threshold or k < k - err_threshold:`
(`generate_trig_luts.py` line 484) deciding whether the non-convergence
failure report is printed. -/
def atanErrGuard (k errThreshold : ℚ) : Bool :=
  decide (k > k + errThreshold) || decide (k < k - errThreshold)

/-- The ATAN `TRIGFOLD.HIGH` branch of `main`
(`generate_trig_luts.py` lines 477-497), up to the computation of `sz`.

* When the solver returns `None`, `err` is never assigned (line 481-482
  guards the assignment), yet the unconditional report at lines 491-494
  evaluates `abs(err - k)`, raising `UnboundLocalError` (a `NameError`).
* Otherwise the outcome records whether the non-convergence report was
  printed (`atanErrGuard k (k/10)`, with `err_threshold = 0.1 * k`) and the
  achieved error `err = 0.5 * log(N² + 1) / N`. -/
def atanHighBranch (log : ℚ → ℚ) (k : ℚ) : Except PyError (Bool × ℚ) :=
  match newton_raphson_N log k with
  | none => Except.error PyError.nameError
  | some n =>
    let err := 1 / 2 * log (n ^ 2 + 1) / n
    let errThreshold := k / 10
    Except.ok (atanErrGuard k errThreshold, err)

/-- The ATAN branch of `main` (`generate_trig_luts.py` lines 477-509) over
the fold-mode match: `MED` raises `NotImplementedError`, `LOW` uses the fixed
`N = 1000` and the full `N_TABLE_ENTRIES` table. -/
def atanBranch (log : ℚ → ℚ) (k : ℚ) (N : Nat) (fold : TRIGFOLD) :
    Except PyError (Bool × ℚ) :=
  match fold with
  | TRIGFOLD.HIGH => atanHighBranch log k
  | TRIGFOLD.MED => Except.error PyError.notImplementedError
  | TRIGFOLD.LOW => Except.ok (false, N)

/-- The fold-mode dispatch of `main` for each requested trig function:
SIN/COS go through the sinusoid branch (lines 342-358), TAN through the TAN
branch (lines 384-402), ASIN/ACOS through the arc-sinusoid branch
(lines 412-426) and ATAN through the ATAN branch (lines 477-509).  The
payload is discarded; only success or the raised exception is kept. -/
noncomputable def trigFoldOutcome (m : TRIGLUTDEFS) (fold : TRIGFOLD) (prec : TRIGPREC)
    (N : Nat) (kTan : ℝ) (kAtan : ℚ) (szPrev : Option Nat) (log : ℚ → ℚ) :
    Except PyError Unit :=
  match m with
  | TRIGLUTDEFS.SIN => (sinusoidBranch N fold prec).map (fun _ => ())
  | TRIGLUTDEFS.COS => (sinusoidBranch N fold prec).map (fun _ => ())
  | TRIGLUTDEFS.TAN => (tanBranch szPrev N kTan fold).map (fun _ => ())
  | TRIGLUTDEFS.ASIN => (arcSinusoidBranch N fold prec).map (fun _ => ())
  | TRIGLUTDEFS.ACOS => (arcSinusoidBranch N fold prec).map (fun _ => ())
  | TRIGLUTDEFS.ATAN => (atanBranch log kAtan N fold).map (fun _ => ())

/-- `LUT_ACC_REPORT` (`Src/Allocator/Interpreter/dataclass.py` lines 368-382)
over exact rationals. -/
structure LUT_ACC_REPORT where
  avg_acc : ℚ
  min_acc : ℚ
  max_acc : ℚ
  acc_scores : List ℚ
  deriving DecidableEq, Repr

/-- `np.min`: raises `ValueError` ("zero-size array to reduction operation")
on an empty array. -/
def npMin (l : List ℚ) : Except PyError ℚ :=
  match l with
  | [] => Except.error PyError.valueError
  | x :: xs => Except.ok (xs.foldl min x)

/-- `np.max`: raises `ValueError` on an empty array. -/
def npMax (l : List ℚ) : Except PyError ℚ :=
  match l with
  | [] => Except.error PyError.valueError
  | x :: xs => Except.ok (xs.foldl max x)

/-- `np.average` of a list (sum divided by length). -/
def npAverage (l : List ℚ) : ℚ :=
  l.foldl (· + ·) 0 / l.length

/-- `np.linspace(a, b, n)` with its default inclusive endpoint:
entry `i` is `a + (b - a) * i / (n - 1)`. -/
def npLinspace (a b : ℚ) (n : Nat) : List ℚ :=
  (List.range n).map (fun i => a + (b - a) * i / ((n : ℚ) - 1))

/-- `assess_lut_accuracy` (`generate_trig_luts.py` lines 575-629), with the
evaluated function `fn` abstract over `ℚ`.

The source order is kept: `np.min(axis_arr)` and `np.max(axis_arr)`
(line 587) are evaluated *before* the `l_axis == 0` guard (line 589), so an
empty axis raises `ValueError` inside `np.min` and the guard is dead code.
The degenerate guards (`l_axis == 0`, table/axis length mismatch, shape
mismatch after evaluation) print a diagnostic and `return` — i.e. produce
Python `None`, modelled as `Except.ok none`. -/
def assess_lut_accuracy (fn : ℚ → ℚ) (lut axis : List ℚ) (oversampleFactor : Nat) :
    Except PyError (Option LUT_ACC_REPORT) := do
  let lAxis := axis.length
  let minAxVal ← npMin axis
  let maxAxVal ← npMax axis
  if lAxis = 0 then
    return none
  if lut.length ≠ lAxis then
    return none
  let fnEvalPoints : List ℚ :=
    if lAxis = 1 then [axis.getD 0 0]
    else
      let lTestAxisOrig := oversampleFactor * lAxis
      let testAxisOrig := npLinspace minAxVal maxAxVal lTestAxisOrig
      (List.range lAxis).map
        (fun i => testAxisOrig.getD (min (i * oversampleFactor) (lTestAxisOrig - 1)) 0)
  let fnValuesAtEvalPoints := fnEvalPoints.map fn
  if fnValuesAtEvalPoints.length ≠ lut.length then
    return none
  let accScores := List.zipWith (fun a b => |a - b|) lut fnValuesAtEvalPoints
  let minAcc ← npMin accScores
  let maxAcc ← npMax accScores
  return some ⟨npAverage accScores, minAcc, maxAcc, accScores⟩

/-! ### Helper lemmas -/

/-- `bytes.fromhex` consumes exactly two characters per produced byte on
space-free input. -/
theorem pyFromHex_length : ∀ (s : List Char), ' ' ∉ s → ∀ bs : List Nat,
    pyFromHex s = some bs → s.length = 2 * bs.length
  | [], _, bs, h => by
    simp [pyFromHex] at h
    subst h
    rfl
  | c1 :: rest, hsp, bs, h => by
    have hc : c1 ≠ ' ' := fun hce => hsp (hce ▸ List.mem_cons_self c1 rest)
    rw [pyFromHex.eq_def] at h
    dsimp only at h
    rw [if_neg hc] at h
    cases rest with
    | nil => simp at h
    | cons c2 rest2 =>
      dsimp only at h
      cases hh : hexDigitVal? c1 with
      | none => simp [hh] at h
      | some hv =>
        cases hl : hexDigitVal? c2 with
        | none => simp [hh, hl] at h
        | some lv =>
          cases hrec : pyFromHex rest2 with
          | none => simp [hh, hl, hrec] at h
          | some bs2 =>
            have hsp2 : ' ' ∉ rest2 := fun hm => hsp (by simp [hm])
            have ih := pyFromHex_length rest2 hsp2 bs2 hrec
            simp [hh, hl, hrec] at h
            subst h
            simp [List.length_cons, ih]
            omega

/-! ### Claim theorems -/

/-- C1: the spec claims `decode(encode(x, order), dtype, order) == x`
bit-for-bit for every supported dtype and byte order.  On the code this
fails twice over.  Decoding: `hex_to_dtype` evaluates
`np.dtype(dtype).newBYTEORDER(...)` (`hex_utils.py` line 198) — the numpy
method is spelled `newbyteorder`, so every decode raises `AttributeError`
and no decode can ever return a value (first conjunct).  Encoding: the
claimed explicit byte-swap never happens, because scalar `astype` returns a
native-order scalar; at `np.float32(1.0)` (big-endian bytes `3f 80 00 00`),
big-endian target, little-endian host, the encode takes the swap branch yet
emits the native-order hex `'0000803f'` (second conjunct), and decoding it
raises `AttributeError` instead of returning the scalar (third
conjunct). -/
theorem decode_encode_roundtrip_broken :
    (∀ (sysLittle : Bool) (s : List Char) (n : Nat) (t : BYTEORDER),
      ∃ e, hex_to_dtype sysLittle s n t = Except.error e) ∧
    float_to_hex true ⟨4, [63, 128, 0, 0]⟩ BYTEORDER.BIG =
      Except.ok ['0', '0', '0', '0', '8', '0', '3', 'f'] ∧
    hex_to_dtype true ['0', '0', '0', '0', '8', '0', '3', 'f'] 4 BYTEORDER.BIG =
      Except.error PyError.attributeError := by
  refine ⟨fun sysLittle s n t => ?_, rfl, rfl⟩
  unfold hex_to_dtype
  split
  · exact ⟨_, rfl⟩
  · split
    · exact ⟨_, rfl⟩
    · split
      · exact ⟨_, rfl⟩
      · exact ⟨_, rfl⟩

/-- C2: the spec claims that when the ATAN Newton-Raphson solver does not
converge, a best-effort failure report with the residual error is returned
and the run does not crash.  On the code, non-convergence makes
`newton_raphson_N` return `None` (here `k = 8/65` stops at the very first
iteration because `f'(8) = 16/65 - 2·(8/65) = 0` is below the tolerance,
for every model of `np.log`); `err` is then never assigned, and the
unconditional report at `generate_trig_luts.py` lines 491-494 evaluates
`abs(err - k)`, raising `UnboundLocalError`.  Moreover the failure-report
guard at line 484 compares `k` against `k ± err_threshold` instead of `err`,
so for every non-negative threshold the report can never be emitted. -/
theorem atan_nonconvergence_crashes (log : ℚ → ℚ) :
    newton_raphson_N log (8 / 65) = none ∧
    atanHighBranch log (8 / 65) = Except.error PyError.nameError ∧
    (∀ k t : ℚ, 0 ≤ t → atanErrGuard k t = false) := by
  have h1 : newton_raphson_N log (8 / 65) = none := by
    show newtonRaphsonGo log (8 / 65) (1 / 10000000) (99 + 1) 8 = none
    rw [newtonRaphsonGo]
    norm_num
  refine ⟨h1, ?_, ?_⟩
  · unfold atanHighBranch
    rw [h1]
  · intro k t ht
    have hg1 : ¬(k > k + t) := by linarith
    have hg2 : ¬(k < k - t) := by linarith
    simp [atanErrGuard, hg1, hg2]

/-- Witness for C2 at `log = fun _ => 0`, `k = 8/65`, guard at
`k = 1/2`, `err_threshold = 1/20`. -/
theorem atan_nonconvergence_crashes_witness :
    newton_raphson_N (fun _ => 0) (8 / 65) = none ∧
    atanHighBranch (fun _ => 0) (8 / 65) = Except.error PyError.nameError ∧
    atanErrGuard (1 / 2) (1 / 20) = false :=
  ⟨(atan_nonconvergence_crashes (fun _ => 0)).1,
   (atan_nonconvergence_crashes (fun _ => 0)).2.1,
   (atan_nonconvergence_crashes (fun _ => 0)).2.2 (1 / 2) (1 / 20) (by norm_num)⟩

/-- C3: for SIN with quarter fold (`TRIGFOLD.HIGH`), high precision
(`TRIGPREC.HIGHP`), budget 4096 bytes and 32-bit float width
(`N_TABLE_ENTRIES = 4096 / 4 = 1024`, scale factor `1`), the generated
table indeed has 1024 entries — but its sample phases do *not* span
`[0, π/2)` as claimed: entry 1023 is `π · (2·1023/1024 + 1/1024) ≈ 2π`,
which is `≥ π/2`.  (Phases are recorded in units of `π`, so the claim
"spans `[0, π/2)`" is "every coefficient `< 1/2`".) -/
theorem sin_quarter_highp_table :
    sinusoidBranch (nTableEntries 4096 4) TRIGFOLD.HIGH TRIGPREC.HIGHP =
      Except.ok (sinPhiCoeffs 1024 1024) ∧
    (sinPhiCoeffs 1024 1024).length = 1024 ∧
    (2 * (1023 : ℚ) / 1024 + 1 / 1024) ∈ sinPhiCoeffs 1024 1024 ∧
    (1 / 2 : ℚ) ≤ 2 * (1023 : ℚ) / 1024 + 1 / 1024 := by
  refine ⟨rfl, ?_, ?_, by norm_num⟩
  · rw [sinPhiCoeffs, List.length_map, List.length_range]
  · rw [sinPhiCoeffs]
    refine List.mem_map.mpr ⟨1023, List.mem_range.mpr (by norm_num), ?_⟩
    norm_num

/-- C4: the spec claims an empty input domain produces a diagnostic and a
null report without raising.  On the code, `np.min(axis_arr)` /
`np.max(axis_arr)` (`generate_trig_luts.py` line 587) are evaluated before
the `l_axis == 0` guard (line 589), and `np.min` of an empty array raises
`ValueError`, so an empty domain crashes the run and the guard is dead
code.  The table/domain length-mismatch path does behave as claimed,
producing the null report `None` without raising. -/
theorem assess_accuracy_degenerate :
    (∀ (fn : ℚ → ℚ) (lut : List ℚ) (osf : Nat),
      assess_lut_accuracy fn lut [] osf = Except.error PyError.valueError) ∧
    (∀ (fn : ℚ → ℚ) (lut axis : List ℚ) (osf : Nat), axis ≠ [] →
      lut.length ≠ axis.length →
      assess_lut_accuracy fn lut axis osf = Except.ok none) := by
  constructor
  · intro fn lut osf
    simp [assess_lut_accuracy, npMin, Bind.bind, Except.bind]
  · intro fn lut axis osf h1 h2
    obtain ⟨a, as, rfl⟩ := List.exists_cons_of_ne_nil h1
    simp only [List.length_cons] at h2
    simp [assess_lut_accuracy, npMin, npMax, Bind.bind, Except.bind, h2, Except.pure,
      Pure.pure]

/-- Witness for C4: empty domain, and a length mismatch on a non-empty
domain. -/
theorem assess_accuracy_degenerate_witness :
    assess_lut_accuracy (fun x => x) [] [] 128 = Except.error PyError.valueError ∧
    assess_lut_accuracy (fun x => x) [1] [0, 1] 128 = Except.ok none :=
  ⟨assess_accuracy_degenerate.1 (fun x => x) [] 128,
   assess_accuracy_degenerate.2 (fun x => x) [1] [0, 1] 128 (by simp) (by simp)⟩

/-- C5: for every error threshold `k ∈ (0, 1)`, the tolerance-driven TAN
table length (`generate_trig_luts.py` lines 389-390) is the least power of
two that is `≥ ⌈π / (2k)⌉ + 1`; in particular for `tan_k = 0.05 = 1/20`
the solved length is `64`. -/
theorem tan_table_size_least_pow2 :
    (∀ k : ℝ, 0 < k → k < 1 →
      tanRequiredLen k ≤ tanTableSize k ∧
        ∀ j : Nat, tanRequiredLen k ≤ 2 ^ j → tanTableSize k ≤ 2 ^ j) ∧
    tanTableSize (1 / 20) = 64 := by
  constructor
  · intro k _ _
    constructor
    · exact (Nat.le_pow_iff_clog_le (by norm_num)).mpr le_rfl
    · intro j hj
      exact Nat.pow_le_pow_right (by norm_num) ((Nat.le_pow_iff_clog_le (by norm_num)).mp hj)
  · have hpi : Real.pi / (2 * ((1 : ℝ) / 20)) = 10 * Real.pi := by
      field_simp
      ring
    have hceil : ⌈Real.pi / (2 * ((1 : ℝ) / 20))⌉₊ = 32 := by
      rw [hpi, Nat.ceil_eq_iff (by norm_num)]
      constructor
      · have := Real.pi_gt_d2
        push_cast
        nlinarith
      · have := Real.pi_lt_d2
        push_cast
        nlinarith
    have hreq : tanRequiredLen (1 / 20) = 33 := by
      rw [tanRequiredLen, hceil]
    rw [tanTableSize, hreq]
    have hclog : Nat.clog 2 33 = 6 := by
      have h1 : Nat.clog 2 33 ≤ 6 := (Nat.le_pow_iff_clog_le (by norm_num)).mp (by norm_num)
      have h2 : ¬Nat.clog 2 33 ≤ 5 := by
        intro hle
        have := (Nat.le_pow_iff_clog_le (by norm_num)).mpr hle
        norm_num at this
      omega
    rw [pow2Ceil, hclog]
    norm_num

/-- Witness for C5 at `k = 1/20`. -/
theorem tan_table_size_least_pow2_witness :
    tanRequiredLen (1 / 20) ≤ tanTableSize (1 / 20) ∧ tanTableSize (1 / 20) = 64 :=
  ⟨(tan_table_size_least_pow2.1 (1 / 20) (by norm_num) (by norm_num)).1,
   tan_table_size_least_pow2.2⟩

/-- C6: for each of the six trig functions, requesting the HALF fold mode
(`TRIGFOLD.MED`) makes the corresponding branch of `main` raise
`NotImplementedError('Half table not yet supported')`
(`generate_trig_luts.py` lines 349, 392, 419 and 499); `main` installs no
handler, so the exception propagates to the caller, and no branch
substitutes another fold mode. -/
theorem half_fold_not_supported :
    ∀ (m : TRIGLUTDEFS) (prec : TRIGPREC) (N : Nat) (kTan : ℝ) (kAtan : ℚ)
      (szPrev : Option Nat) (log : ℚ → ℚ),
      trigFoldOutcome m TRIGFOLD.MED prec N kTan kAtan szPrev log =
        Except.error PyError.notImplementedError := by
  intro m prec N kTan kAtan szPrev log
  cases m <;> rfl

/-- C7: for a fixed budget-derived nominal length `N`, the budget-driven
table length `N // _calculate_scale_factor(fold, prec)` never decreases when
the precision mode moves toward `HIGHP`, and for a fixed precision mode the
length under the FULL fold mode (`TRIGFOLD.LOW`) is at least the length
under the QUARTER fold mode (`TRIGFOLD.HIGH`). -/
theorem table_length_monotone :
    (∀ (N : Nat) (fold : TRIGFOLD) (p1 p2 : TRIGPREC), p1.val ≤ p2.val →
      N / calculate_scale_factor fold p1 ≤ N / calculate_scale_factor fold p2) ∧
    (∀ (N : Nat) (p : TRIGPREC),
      N / calculate_scale_factor TRIGFOLD.HIGH p ≤ N / calculate_scale_factor TRIGFOLD.LOW p) := by
  constructor
  · intro N fold p1 p2 hp
    apply Nat.div_le_div_left
    · exact max_le_max (Nat.mul_le_mul_left _ (Nat.sub_le_sub_left hp 2)) le_rfl
    · exact lt_of_lt_of_le one_pos (le_max_right _ 1)
  · intro N p
    have h1 : calculate_scale_factor TRIGFOLD.LOW p = 1 := by cases p <;> rfl
    rw [h1, Nat.div_one]
    exact Nat.div_le_self N _

/-- Witness for C7 at `N = 1024`, quarter fold, `LOWP ≤ HIGHP`. -/
theorem table_length_monotone_witness :
    1024 / calculate_scale_factor TRIGFOLD.HIGH TRIGPREC.LOWP ≤
      1024 / calculate_scale_factor TRIGFOLD.HIGH TRIGPREC.HIGHP ∧
    1024 / calculate_scale_factor TRIGFOLD.HIGH TRIGPREC.LOWP ≤
      1024 / calculate_scale_factor TRIGFOLD.LOW TRIGPREC.LOWP :=
  ⟨table_length_monotone.1 1024 TRIGFOLD.HIGH TRIGPREC.LOWP TRIGPREC.HIGHP (by decide),
   table_length_monotone.2 1024 TRIGPREC.LOWP⟩

/-- C8: `_get_valid_file_path` (`hex_utils.py` lines 263-287):
a name with no extension gets `'.hex'` appended; any extension other than
`'.hex'` raises `ValueError`; under the `refuse` policy (`ow = False`) an
existing target raises `FileExistsError` before the caller opens the file;
under `allow` (`ow = True`) path validation succeeds regardless of
existence; under `ignore` (`ow = None`) existence is not consulted. -/
theorem file_path_policy :
    (∀ (dir : List Char) (onDisk : List Char → Bool) (name : List Char) (ow : Option Bool),
      (splitext name).2 = [] →
      get_valid_file_path dir onDisk name ow = Except.error PyError.fileExistsError ∨
        get_valid_file_path dir onDisk name ow = Except.ok (posix_join dir (name ++ hexExt))) ∧
    (∀ (dir : List Char) (onDisk : List Char → Bool) (name : List Char) (ow : Option Bool),
      (splitext name).2 ≠ [] → (splitext name).2 ≠ hexExt →
      get_valid_file_path dir onDisk name ow = Except.error PyError.valueError) ∧
    (∀ (dir : List Char) (onDisk : List Char → Bool) (name : List Char),
      (splitext name).2 = hexExt → onDisk (posix_join dir name) = true →
      get_valid_file_path dir onDisk name (some false) = Except.error PyError.fileExistsError) ∧
    (∀ (dir : List Char) (onDisk : List Char → Bool) (name : List Char),
      (splitext name).2 = hexExt →
      get_valid_file_path dir onDisk name (some true) = Except.ok (posix_join dir name)) ∧
    (∀ (dir : List Char) (onDisk : List Char → Bool) (name : List Char),
      (splitext name).2 = hexExt →
      get_valid_file_path dir onDisk name none = Except.ok (posix_join dir name)) := by
  refine ⟨?_, ?_, ?_, ?_, ?_⟩
  · intro dir onDisk name ow h
    unfold get_valid_file_path
    rw [h]
    simp only [if_pos rfl]
    by_cases hcond : ow = some false ∧ onDisk (posix_join dir (name ++ hexExt)) = true
    · exact Or.inl (if_pos hcond)
    · exact Or.inr (if_neg hcond)
  · intro dir onDisk name ow h1 h2
    unfold get_valid_file_path
    rw [if_neg h1, if_pos h2]
  · intro dir onDisk name h hd
    unfold get_valid_file_path
    rw [h]
    rw [if_neg (by decide), if_neg (by simp [hexExt]), if_pos ⟨rfl, hd⟩]
  · intro dir onDisk name h
    unfold get_valid_file_path
    rw [h]
    rw [if_neg (by decide), if_neg (by simp [hexExt]), if_neg (by simp)]
  · intro dir onDisk name h
    unfold get_valid_file_path
    rw [h]
    rw [if_neg (by decide), if_neg (by simp [hexExt]), if_neg (by simp)]

/-- Witness for C8: directory `out`, names `lut` (no extension),
`a.txt` (wrong extension) and `a.hex`, over a file system where every path
exists. -/
theorem file_path_policy_witness :
    (get_valid_file_path ['o', 'u', 't'] (fun _ => true) ['l', 'u', 't'] none =
        Except.error PyError.fileExistsError ∨
      get_valid_file_path ['o', 'u', 't'] (fun _ => true) ['l', 'u', 't'] none =
        Except.ok (posix_join ['o', 'u', 't'] (['l', 'u', 't'] ++ hexExt))) ∧
    get_valid_file_path ['o', 'u', 't'] (fun _ => true) ['a', '.', 't', 'x', 't'] (some true) =
      Except.error PyError.valueError ∧
    get_valid_file_path ['o', 'u', 't'] (fun _ => true) ['a', '.', 'h', 'e', 'x'] (some false) =
      Except.error PyError.fileExistsError ∧
    get_valid_file_path ['o', 'u', 't'] (fun _ => true) ['a', '.', 'h', 'e', 'x'] (some true) =
      Except.ok (posix_join ['o', 'u', 't'] ['a', '.', 'h', 'e', 'x']) ∧
    get_valid_file_path ['o', 'u', 't'] (fun _ => true) ['a', '.', 'h', 'e', 'x'] none =
      Except.ok (posix_join ['o', 'u', 't'] ['a', '.', 'h', 'e', 'x']) :=
  ⟨file_path_policy.1 _ _ _ none (by decide),
   file_path_policy.2.1 _ _ _ (some true) (by decide) (by decide),
   file_path_policy.2.2.1 _ _ _ (by decide) rfl,
   file_path_policy.2.2.2.1 _ _ _ (by decide),
   file_path_policy.2.2.2.2 _ _ _ (by decide)⟩

/-- C9: for every string of hexadecimal digit characters and every dtype
item size, `hex_to_dtype` raises the validation `ValueError` whenever the
string length differs from `2 × itemsize` (`hex_utils.py` lines 180-193);
the error comes from the validation steps, before the value-producing
`np.frombuffer` line is reached, so no truncated or padded value is ever
produced. -/
theorem hex_length_validation :
    ∀ (sysLittle : Bool) (s : List Char) (n : Nat) (target : BYTEORDER),
      (∀ c ∈ s, (hexDigitVal? c).isSome) → s.length ≠ 2 * n →
      hex_to_dtype sysLittle s n target = Except.error PyError.valueError := by
  intro sysLittle s n target hall hlen
  unfold hex_to_dtype
  by_cases hpar : s.length % 2 ≠ 0
  · rw [if_pos hpar]
  · rw [if_neg hpar]
    cases hp : pyFromHex s with
    | none => rfl
    | some bs =>
      have hsp : ' ' ∉ s := fun hm => by
        have := hall ' ' hm
        simp [hexDigitVal?] at this
      have hl := pyFromHex_length s hsp bs hp
      have hbs : bs.length ≠ n := fun he => hlen (by rw [hl, he])
      dsimp only
      rw [if_pos hbs]

/-- Witness for C9: the 2-character hex string `'3f'` decoded at a 4-byte
dtype. -/
theorem hex_length_validation_witness :
    hex_to_dtype true ['3', 'f'] 4 BYTEORDER.BIG = Except.error PyError.valueError :=
  hex_length_validation true ['3', 'f'] 4 BYTEORDER.BIG (by decide) (by decide)

/-- C10: `int_to_hex` is not total over builtin Python ints: every `int`
whose `bit_length()` lies in `[63, 127)` selects the nonexistent type
`np.int128` and fails with an unhandled `AttributeError` (no hex string, and
not the signalled `ValueError`), while `bit_length() ≥ 127` takes the
explicit `ValueError` path (`hex_utils.py` lines 214-225). -/
theorem int_to_hex_partiality :
    ∀ (i : Int) (sysLittle : Bool) (target : BYTEORDER),
      (63 ≤ pyBitLength i → pyBitLength i < 127 →
        int_to_hex sysLittle i target = Except.error PyError.attributeError) ∧
      (127 ≤ pyBitLength i →
        int_to_hex sysLittle i target = Except.error PyError.valueError) := by
  intro i sysLittle target
  constructor
  · intro h1 h2
    unfold int_to_hex int_to_hex_select
    rw [if_neg (by omega), if_neg (by omega), if_pos h2]
  · intro h1
    unfold int_to_hex int_to_hex_select
    rw [if_neg (by omega), if_neg (by omega), if_neg (by omega)]

/-- Witness for C10 at `i = 2^63` (bit length 64). -/
theorem int_to_hex_partiality_witness :
    pyBitLength (2 ^ 63) = 64 ∧
    int_to_hex true (2 ^ 63) BYTEORDER.BIG = Except.error PyError.attributeError := by
  have h0 : ((2 : Int) ^ 63) ≠ 0 := by norm_num
  have habs : ((2 : Int) ^ 63).natAbs = 2 ^ 63 := by norm_num
  have hlog : Nat.log2 (2 ^ 63) = 63 := by
    rw [Nat.log2_eq_log_two, Nat.log_pow (by norm_num)]
  have hbl : pyBitLength (2 ^ 63) = 64 := by
    unfold pyBitLength
    rw [if_neg h0, habs, hlog]
  exact ⟨hbl, (int_to_hex_partiality (2 ^ 63) true BYTEORDER.BIG).1 (by omega) (by omega)⟩
